import Mathlib

/-!
Verification of the DocuMind study-material application.

The development shallowly embeds the two source modules:

* `core/utils.py` — `extract_text_from_pdf` and `generate_study_material`;
* `core/views.py` — the `dashboard` request handler.

External effects (the PDF library, the Gemini client, `json.loads`,
`os.getenv`) are modelled as explicit inputs: a `PdfStream` records
whether the stream opens and what each page extraction yields, and a
`GenEnv` records the outcome of each of the three model calls together
with the JSON parser.  Python strings are Lean `String`s; Python dicts
appearing in JSON payloads are ordered association lists with the usual
insert-or-overwrite-in-place update, matching CPython dict semantics.
-/

namespace DocuMind

/-- JSON values as produced by `json.loads`. -/
inductive JsonValue where
  | null
  | bool (b : Bool)
  | num (n : Int)
  | str (s : String)
  | arr (xs : List JsonValue)
  | obj (fields : List (String × JsonValue))

/-- A JSON object body: key/value pairs in insertion order (keys unique). -/
abbrev JsonObj := List (String × JsonValue)

/-- Dict lookup: `d[k]` / `k in d` support. -/
def dictLookup : JsonObj → String → Option JsonValue
  | [], _ => none
  | (k, v) :: rest, key => if k = key then some v else dictLookup rest key

/-- Dict assignment `d[key] = val`: overwrite in place, else append (CPython order). -/
def dictSet : JsonObj → String → JsonValue → JsonObj
  | [], key, val => [(key, val)]
  | (k, v) :: rest, key, val =>
      if k = key then (key, val) :: rest else (k, v) :: dictSet rest key val

/-- `data.get(key)` on a parsed payload (returns `None` when absent or not a dict). -/
def dictGet (d : JsonValue) (key : String) : Option JsonValue :=
  match d with
  | .obj fields => dictLookup fields key
  | _ => none

/-- `data.get(key, dflt)` on a parsed payload. -/
def dictGetD (d : JsonValue) (key : String) (dflt : JsonValue) : JsonValue :=
  (dictGet d key).getD dflt

/-- Strip whitespace from both ends of a character list (Python `str.strip`). -/
def stripChars (l : List Char) : List Char :=
  ((l.dropWhile Char.isWhitespace).reverse.dropWhile Char.isWhitespace).reverse

/-- Python `s.strip()`. -/
def pyStrip (s : String) : String := ⟨stripChars s.data⟩

/-- Python `sep.join(chunks)`. -/
def pyJoin (sep : String) : List String → String
  | [] => ""
  | [c] => c
  | c :: rest => c ++ sep ++ pyJoin sep rest

/-! ## `extract_text_from_pdf` (core/utils.py lines 13-41) -/

/-- The observable behaviour of an uploaded stream under pdfplumber:
whether it opens as a PDF, and for each page either `none`
(`page.extract_text()` raises) or `some s` (it returns text `s`;
a Python `None` result is already coerced to `""` by `or ""`). -/
structure PdfStream where
  opensOk : Bool
  pages : List (Option String)

/-- The two `ValueError` raise sites of the extractor. -/
inductive ExtractError where
  | readError
  | emptyContent
deriving DecidableEq

/-- Message of each extractor error (the `ValueError` argument). -/
def extractMsg : ExtractError → String
  | .readError => "Could not read PDF file. It may be corrupt or not a valid PDF."
  | .emptyContent => "No extractable text was found in the PDF."

/-- The `text_chunks` list built by the page loop: per page, pages whose
extraction raises are skipped, the text is stripped, and only non-empty
cleaned text is appended. -/
def pageChunks (pages : List (Option String)) : List String :=
  pages.filterMap fun p =>
    match p with
    | none => none
    | some page_text =>
        let cleaned := pyStrip page_text
        if cleaned = "" then none else some cleaned

/-- `extract_text_from_pdf`: open the stream, collect per-page cleaned text,
fail when nothing was extracted, else join with a blank line. -/
def extract_text_from_pdf (pdf : PdfStream) : Except ExtractError String :=
  if pdf.opensOk = false then
    .error .readError
  else
    let text_chunks := pageChunks pdf.pages
    if text_chunks = [] then .error .emptyContent
    else .ok (pyJoin "\n\n" text_chunks)

/-! ## `generate_study_material` (core/utils.py lines 44-157) -/

/-- The distinct failure exits of the generator.  The first four are the
spec taxonomy's `ConfigurationError` / `GenerationError` /
`EmptyResponseError` / `MalformedResponseError` (in the source they are
`RuntimeError` / `ValueError` raise sites); `typeError` is an uncategorized
`TypeError` escaping the normalization step, carrying its message. -/
inductive GenFailure where
  | configurationError
  | generationError (lastError : String)
  | emptyResponseError
  | malformedResponseError
  | typeError (msg : String)
deriving DecidableEq

/-- `str(exc)` for each generator failure (the `from` cause of a
`GenerationError` does not appear in its string form). -/
def genMsg : GenFailure → String
  | .configurationError => "GEMINI_API_KEY is not set in the environment."
  | .generationError _ =>
      "All Gemini model attempts failed. Please check your quota, region, or model access."
  | .emptyResponseError => "Gemini returned an empty response."
  | .malformedResponseError => "Gemini did not return valid JSON."
  | .typeError m => m

/-- Python membership `key in data` on a parsed JSON value: dict key lookup,
list element equality against the string, substring test on a string, and a
`TypeError` on non-container values. -/
def pyContains (d : JsonValue) (key : String) : Except GenFailure Bool :=
  match d with
  | .obj fields => .ok (dictLookup fields key).isSome
  | .arr xs =>
      .ok (xs.any fun v =>
        match v with
        | .str t => t = key
        | _ => false)
  | .str s => .ok (decide (List.IsInfix key.data s.data))
  | _ => .error (.typeError "argument of type is not iterable")

/-- Python subscript `data[key]` with a string key: only dicts support it.
(The missing-key branch raises `KeyError`; in the normalization flow it is
unreachable because subscripting is guarded by a membership test.) -/
def pyGetItem (d : JsonValue) (key : String) : Except GenFailure JsonValue :=
  match d with
  | .obj fields =>
      match dictLookup fields key with
      | some v => .ok v
      | none => .error (.typeError "KeyError")
  | _ => .error (.typeError "indices must be integers")

/-- Python item assignment `data[key] = val` with a string key: only dicts
support it. -/
def pySetItem (d : JsonValue) (key : String) (val : JsonValue) :
    Except GenFailure JsonValue :=
  match d with
  | .obj fields => .ok (.obj (dictSet fields key val))
  | _ => .error (.typeError "object does not support item assignment")

/-- `isinstance(v, str)`. -/
def isStr : JsonValue → Bool
  | .str _ => true
  | _ => false

/-- `isinstance(v, list)`. -/
def isList : JsonValue → Bool
  | .arr _ => true
  | _ => false

/-- One normalization statement
`if key not in data or not check(data[key]): data[key] = dflt`,
with Python's left-to-right, short-circuit evaluation and its exceptions. -/
def normField (key : String) (check : JsonValue → Bool) (dflt : JsonValue)
    (d : JsonValue) : Except GenFailure JsonValue := do
  let c ← pyContains d key
  let need ←
    if c then do
      let v ← pyGetItem d key
      pure (!check v)
    else
      pure true
  if need then pySetItem d key dflt else pure d

/-- The three normalization statements of lines 148-155. -/
def normalize (d : JsonValue) : Except GenFailure JsonValue := do
  let d ← normField "summary" isStr (.str "") d
  let d ← normField "flashcards" isList (.arr []) d
  normField "quiz" isList (.arr []) d

/-- The pure effect of one normalization statement on a dict body (the
exception-free path taken when the payload is an object). -/
def coerceField (key : String) (check : JsonValue → Bool) (dflt : JsonValue)
    (fields : JsonObj) : JsonObj :=
  match dictLookup fields key with
  | some v => if check v then fields else dictSet fields key dflt
  | none => dictSet fields key dflt

/-- The environment a single `generate_study_material` invocation observes:
the `GEMINI_API_KEY` variable, the outcome of each model's
`generate_content` call (`.error msg` when the call raises, `.ok t` when it
returns a response whose `text` attribute is `t`, with a missing or `None`
attribute recorded as `none`), and the behaviour of `json.loads` on the
final body (`none` for a `JSONDecodeError`). -/
structure GenEnv where
  apiKey : Option String
  callA : Except String (Option String)
  callB : Except String (Option String)
  callC : Except String (Option String)
  jsonLoads : String → Option JsonValue

/-- `"gemini-flash-latest"`, the primary model. -/
def modelA : String := "gemini-flash-latest"

/-- `"gemini-pro-latest"`, the fallback model. -/
def modelB : String := "gemini-pro-latest"

/-- `"gemini-2.0-flash-lite-preview-02-05"`, the final attempt. -/
def modelC : String := "gemini-2.0-flash-lite-preview-02-05"

/-- The nested try/except chain of lines 100-131: the list of models whose
`generate_content` was invoked, and either the successful response or the
last error (`response is None` exactly when all attempts raised). -/
def tryModels (env : GenEnv) : List String × Except String (Option String) :=
  match env.callA with
  | .ok r => ([modelA], .ok r)
  | .error _ =>
    match env.callB with
    | .ok r => ([modelA, modelB], .ok r)
    | .error _ =>
      match env.callC with
      | .ok r => ([modelA, modelB, modelC], .ok r)
      | .error eC => ([modelA, modelB, modelC], .error eC)

/-- Lines 138-157: `raw_text = getattr(response, "text", "") or ""`, the
empty-body check, `json.loads`, and the normalization. -/
def processResponse (env : GenEnv) (resp : Option String) :
    Except GenFailure JsonValue :=
  let raw_text := resp.getD ""
  if raw_text = "" then .error .emptyResponseError
  else
    match env.jsonLoads raw_text with
    | none => .error .malformedResponseError
    | some data => normalize data

/-- `generate_study_material`, returning both the list of models invoked
(in order) and the outcome.  The credential check precedes every model
call; `if response is None` corresponds to the error side of `tryModels`. -/
def generate_study_material (env : GenEnv) (text : String) :
    List String × Except GenFailure JsonValue :=
  let _sourceText := text
  if env.apiKey.getD "" = "" then
    ([], .error .configurationError)
  else
    match (tryModels env).2 with
    | .error last_error => ((tryModels env).1, .error (.generationError last_error))
    | .ok response => ((tryModels env).1, processResponse env response)

/-! ## `dashboard` (core/views.py) -/

/-- Python `s.lower()`. -/
def pyLower (s : String) : String := ⟨s.data.map Char.toLower⟩

/-- Python `s.endswith(post)`. -/
def pyEndsWith (s post : String) : Bool := decide (List.IsSuffix post.data s.data)

/-- The uploaded file: its `name` and the stream handed to the extractor. -/
structure UploadedFile where
  name : String
  stream : PdfStream

/-- The request: its HTTP method and `request.FILES.get("pdf_file")`. -/
structure HttpRequest where
  method : String
  pdf_file : Option UploadedFile

/-- The template context built by the view. -/
structure Context where
  summary : Option JsonValue
  flashcards : JsonValue
  quiz : JsonValue
  error : Option String

/-- Lines 9-14: the initial context. -/
def initContext : Context :=
  { summary := none, flashcards := .arr [], quiz := .arr [], error := none }

/-- `str(exc) or "Something went wrong while processing the PDF."`. -/
def orFallback (s : String) : String :=
  if s = "" then "Something went wrong while processing the PDF." else s

/-- The `dashboard` view.  Besides the final context it returns the trace of
pipeline stages actually entered (`"extract"`, then `"generate"`), so that
claims about components never being invoked are statable. -/
def dashboard (req : HttpRequest) (env : GenEnv) : Context × List String :=
  if req.method = "POST" then
    match req.pdf_file with
    | none =>
        ({ initContext with error := some "Please upload a PDF file." }, [])
    | some uploaded_file =>
        if pyEndsWith (pyLower uploaded_file.name) ".pdf" = false then
          ({ initContext with error := some "Only PDF files are supported." }, [])
        else
          match extract_text_from_pdf uploaded_file.stream with
          | .error exc =>
              ({ initContext with error := some (orFallback (extractMsg exc)) },
                ["extract"])
          | .ok text =>
              match (generate_study_material env text).2 with
              | .error exc =>
                  ({ initContext with error := some (orFallback (genMsg exc)) },
                    ["extract", "generate"])
              | .ok study_material =>
                  ({ summary := dictGet study_material "summary",
                     flashcards := dictGetD study_material "flashcards" (.arr []),
                     quiz := dictGetD study_material "quiz" (.arr []),
                     error := none },
                    ["extract", "generate"])
  else
    (initContext, [])

/-! ## Helper lemmas -/

/-- A string is non-empty iff its character list is. -/
theorem str_ne_empty_iff (s : String) : s ≠ "" ↔ s.data ≠ [] := by
  constructor
  · intro h hdata
    exact h (String.ext (by simpa using hdata))
  · intro h heq
    exact h (by rw [heq])

/-- `stripChars` is `dropWhile` on the left followed by `rdropWhile` on the right. -/
theorem stripChars_eq (l : List Char) :
    stripChars l =
      List.rdropWhile Char.isWhitespace (List.dropWhile Char.isWhitespace l) := rfl

/-- After stripping, a leading character is never whitespace. -/
theorem stripChars_head?_not (l : List Char) (ch : Char)
    (h : (stripChars l).head? = some ch) : ch.isWhitespace = false := by
  rw [stripChars_eq] at h
  obtain ⟨t, ht⟩ :=
    (List.rdropWhile_prefix Char.isWhitespace (List.dropWhile Char.isWhitespace l))
  have hh : (List.dropWhile Char.isWhitespace l).head? = some ch := by
    rw [← ht, List.head?_append, h]
    rfl
  have := List.find?_not_eq_head?_dropWhile (p := Char.isWhitespace) (l := l)
  rw [← this] at hh
  have := List.find?_some hh
  simpa using this

/-- After stripping, a trailing character is never whitespace. -/
theorem stripChars_getLast?_not (l : List Char) (ch : Char)
    (h : (stripChars l).getLast? = some ch) : ch.isWhitespace = false := by
  rw [stripChars_eq] at h
  have hne : List.rdropWhile Char.isWhitespace (List.dropWhile Char.isWhitespace l) ≠ [] := by
    intro hnil
    rw [hnil] at h
    exact Option.noConfusion h
  rw [List.getLast?_eq_getLast _ hne] at h
  have hlast := List.rdropWhile_last_not Char.isWhitespace _ hne
  have hch : (List.rdropWhile Char.isWhitespace
      (List.dropWhile Char.isWhitespace l)).getLast hne = ch := Option.some.inj h
  rw [← hch]
  simpa using hlast

/-- Stripping is idempotent. -/
theorem stripChars_idem (l : List Char) : stripChars (stripChars l) = stripChars l := by
  rw [stripChars_eq (stripChars l)]
  have hdrop : List.dropWhile Char.isWhitespace (stripChars l) = stripChars l := by
    cases hh : (stripChars l).head? with
    | none =>
        have : stripChars l = [] := by
          cases hs : stripChars l
          · rfl
          · rw [hs] at hh; exact Option.noConfusion hh
        rw [this]
        rfl
    | some ch =>
        have hw := stripChars_head?_not l ch hh
        cases hs : stripChars l with
        | nil => rfl
        | cons a as =>
            rw [hs] at hh
            have ha : a = ch := by
              simpa using hh
            rw [List.dropWhile_cons, ha, hw]
            simp
  rw [hdrop, stripChars_eq l, List.rdropWhile_idempotent]

/-- `pyStrip` is idempotent. -/
theorem pyStrip_idem (s : String) : pyStrip (pyStrip s) = pyStrip s := by
  apply String.ext
  show stripChars (stripChars s.data) = stripChars s.data
  exact stripChars_idem s.data

/-- A page whose extraction raises contributes nothing. -/
theorem pageChunks_cons_none (ps : List (Option String)) :
    pageChunks (none :: ps) = pageChunks ps := rfl

/-- A page with text contributes its stripped text when non-blank. -/
theorem pageChunks_cons_some (s : String) (ps : List (Option String)) :
    pageChunks (some s :: ps) =
      if pyStrip s = "" then pageChunks ps else pyStrip s :: pageChunks ps := by
  by_cases hs : pyStrip s = "" <;> simp [pageChunks, List.filterMap_cons, hs]

/-- Every collected chunk is non-empty and is the stripped text of some page. -/
theorem pageChunks_mem (pages : List (Option String)) (c : String)
    (hc : c ∈ pageChunks pages) :
    c ≠ "" ∧ ∃ t, some t ∈ pages ∧ c = pyStrip t := by
  induction pages with
  | nil => simp [pageChunks] at hc
  | cons p rest ih =>
      cases p with
      | none =>
          rw [pageChunks_cons_none] at hc
          obtain ⟨h1, t, ht, h2⟩ := ih hc
          exact ⟨h1, t, List.mem_cons_of_mem _ ht, h2⟩
      | some s =>
          rw [pageChunks_cons_some] at hc
          by_cases hs : pyStrip s = ""
          · rw [if_pos hs] at hc
            obtain ⟨h1, t, ht, h2⟩ := ih hc
            exact ⟨h1, t, List.mem_cons_of_mem _ ht, h2⟩
          · rw [if_neg hs] at hc
            cases List.mem_cons.mp hc with
            | inl h =>
                exact ⟨h ▸ hs, s, List.mem_cons_self _ _, h⟩
            | inr h =>
                obtain ⟨h1, t, ht, h2⟩ := ih h
                exact ⟨h1, t, List.mem_cons_of_mem _ ht, h2⟩

/-- On already-stripped, non-empty page texts the chunk list is the text list. -/
theorem pageChunks_map_some (texts : List String)
    (h : ∀ s ∈ texts, pyStrip s = s ∧ s ≠ "") :
    pageChunks (texts.map some) = texts := by
  induction texts with
  | nil => rfl
  | cons s rest ih =>
      obtain ⟨h1, h2⟩ := h s (List.mem_cons_self _ _)
      have hne : ¬pyStrip s = "" := by rw [h1]; exact h2
      have ih' := ih fun t ht => h t (List.mem_cons_of_mem _ ht)
      rw [List.map_cons, pageChunks_cons_some, if_neg hne, h1, ih']

/-- When every page raises or strips to nothing, no chunk is collected. -/
theorem pageChunks_eq_nil (pages : List (Option String))
    (h : ∀ p ∈ pages, ∀ s, p = some s → pyStrip s = "") :
    pageChunks pages = [] := by
  induction pages with
  | nil => rfl
  | cons p rest ih =>
      have ih' := ih fun q hq => h q (List.mem_cons_of_mem _ hq)
      cases p with
      | none => rw [pageChunks_cons_none]; exact ih'
      | some s =>
          have hs := h (some s) (List.mem_cons_self _ _) s rfl
          rw [pageChunks_cons_some, if_pos hs]
          exact ih'

/-- A join headed by a non-empty chunk is non-empty. -/
theorem pyJoin_ne_empty (sep c : String) (rest : List String) (hc : c ≠ "") :
    pyJoin sep (c :: rest) ≠ "" := by
  cases rest with
  | nil => simpa [pyJoin] using hc
  | cons r rs =>
      intro hcontra
      have hdata : (c ++ sep ++ pyJoin sep (r :: rs)).data = [] := by
        rw [show c ++ sep ++ pyJoin sep (r :: rs) = pyJoin sep (c :: r :: rs) from rfl,
          hcontra]
      rw [String.data_append, String.data_append, List.append_assoc,
        List.append_eq_nil] at hdata
      exact (str_ne_empty_iff c).mp hc hdata.1

/-- The first character of a join is the first character of its first chunk. -/
theorem pyJoin_head? (sep c : String) (rest : List String) (hc : c.data ≠ []) :
    (pyJoin sep (c :: rest)).data.head? = c.data.head? := by
  cases rest with
  | nil => rfl
  | cons r rs =>
      show (c ++ sep ++ pyJoin sep (r :: rs)).data.head? = c.data.head?
      rw [String.data_append, String.data_append, List.append_assoc,
        List.head?_append]
      cases hd : c.data with
      | nil => exact absurd hd hc
      | cons a as => rfl

/-- The last character of a join is the last character of its last chunk. -/
theorem pyJoin_getLast? (sep : String) :
    ∀ (chunks : List String), (∀ c ∈ chunks, c ≠ "") → ∀ hne : chunks ≠ [],
      (pyJoin sep chunks).data.getLast? =
        (chunks.getLast hne).data.getLast? := by
  intro chunks
  induction chunks with
  | nil => intro _ hne; exact absurd rfl hne
  | cons c rest ih =>
      intro h hne
      cases rest with
      | nil => rfl
      | cons r rs =>
          have hrec := ih (fun t ht => h t (List.mem_cons_of_mem _ ht))
            (List.cons_ne_nil _ _)
          have hlast_mem := List.getLast_mem (l := r :: rs) (List.cons_ne_nil r rs)
          have hlast_ne : ((r :: rs).getLast (List.cons_ne_nil r rs)).data ≠ [] :=
            (str_ne_empty_iff _).mp (h _ (List.mem_cons_of_mem _ hlast_mem))
          show (c ++ sep ++ pyJoin sep (r :: rs)).data.getLast? = _
          rw [String.data_append, String.data_append, List.getLast?_append, hrec,
            List.getLast?_eq_getLast _ hlast_ne, List.getLast_cons (List.cons_ne_nil r rs),
            List.getLast?_eq_getLast _ hlast_ne]
          rfl

/-! ## Claim theorems: the extractor -/

/-- C4 counterexample: the claim as stated fails, because the extractor
strips each page's text before joining.  A stream whose single page extracts
" hi " yields "hi", not the join of the page texts, which is " hi ". -/
theorem c4_counterexample :
    extract_text_from_pdf ⟨true, [some " hi "]⟩ ≠ .ok (pyJoin "\n\n" [" hi "]) ∧
      extract_text_from_pdf ⟨true, [some " hi "]⟩ = .ok "hi" := by
  refine ⟨?_, rfl⟩
  intro h
  have h2 : extract_text_from_pdf ⟨true, [some " hi "]⟩ = .ok "hi" := rfl
  rw [h2] at h
  have : ("hi" : String) = pyJoin "\n\n" [" hi "] := by
    simpa using h
  exact absurd this (by decide)

/-- C4 (amended): for a stream that opens, whose every page extracts text
that is non-empty and already free of leading/trailing whitespace, and which
has at least one page, the extractor returns exactly the page texts joined
in original page order by a blank-line separator. -/
theorem c4_join_in_order (pdf : PdfStream) (texts : List String)
    (h1 : pdf.opensOk = true) (h2 : pdf.pages = texts.map some)
    (h3 : texts ≠ []) (h4 : ∀ s ∈ texts, pyStrip s = s ∧ s ≠ "") :
    extract_text_from_pdf pdf = .ok (pyJoin "\n\n" texts) := by
  unfold extract_text_from_pdf
  rw [h1, h2, pageChunks_map_some texts h4]
  simp [h3]

/-- C4 witness: a concrete two-page stream with clean page texts. -/
theorem c4_join_in_order_witness :
    extract_text_from_pdf ⟨true, [some "alpha", some "beta"]⟩ =
      .ok (pyJoin "\n\n" ["alpha", "beta"]) :=
  c4_join_in_order ⟨true, [some "alpha", some "beta"]⟩ ["alpha", "beta"]
    rfl rfl (by decide) (by decide)

/-- C5: for a stream that opens, if every page either raises or strips to
nothing the extractor fails with the empty-content error, and whenever it
returns normally the returned text is non-empty. -/
theorem c5_empty_content (pdf : PdfStream) (h1 : pdf.opensOk = true) :
    ((∀ p ∈ pdf.pages, ∀ s, p = some s → pyStrip s = "") →
        extract_text_from_pdf pdf = .error .emptyContent) ∧
      (∀ s, extract_text_from_pdf pdf = .ok s → s ≠ "") := by
  constructor
  · intro h
    unfold extract_text_from_pdf
    rw [h1, pageChunks_eq_nil pdf.pages h]
    simp
  · intro s hs
    unfold extract_text_from_pdf at hs
    rw [h1] at hs
    simp only [Bool.true_eq_false, if_false] at hs
    cases hchunks : pageChunks pdf.pages with
    | nil => rw [hchunks] at hs; simp at hs
    | cons c rest =>
        rw [hchunks] at hs
        simp only [List.cons_ne_nil, if_false, Except.ok.injEq] at hs
        have hc := (pageChunks_mem pdf.pages c (hchunks ▸ List.mem_cons_self c rest)).1
        rw [← hs]
        exact pyJoin_ne_empty "\n\n" c rest hc

/-- C5 witness: a stream with one blank page and one raising page fails
with the empty-content error. -/
theorem c5_empty_content_witness :
    extract_text_from_pdf ⟨true, [some "  ", none]⟩ = .error .emptyContent :=
  (c5_empty_content ⟨true, [some "  ", none]⟩ rfl).1 (by
    intro p hp s hs
    rcases List.mem_cons.mp hp with rfl | hp2
    · cases hs; decide
    · rcases List.mem_cons.mp hp2 with rfl | hp3
      · exact Option.noConfusion hs
      · exact absurd hp3 (List.not_mem_nil p))

/-- C10: whenever the extractor returns normally, its output is the
blank-line join of a non-empty list of chunks, each chunk being the
stripped (hence strip-invariant) non-empty text of some page, and the
output neither begins nor ends with a whitespace character. -/
theorem c10_stripped_chunks (pdf : PdfStream) (s : String)
    (h : extract_text_from_pdf pdf = .ok s) :
    ∃ chunks : List String, chunks ≠ [] ∧ s = pyJoin "\n\n" chunks ∧
      (∀ c ∈ chunks,
        c ≠ "" ∧ pyStrip c = c ∧ ∃ t, some t ∈ pdf.pages ∧ c = pyStrip t) ∧
      (∀ ch, s.data.head? = some ch → ch.isWhitespace = false) ∧
      (∀ ch, s.data.getLast? = some ch → ch.isWhitespace = false) := by
  unfold extract_text_from_pdf at h
  cases hopen : pdf.opensOk with
  | false => rw [hopen] at h; simp at h
  | true =>
      rw [hopen] at h
      simp only [Bool.true_eq_false, if_false] at h
      cases hchunks : pageChunks pdf.pages with
      | nil => rw [hchunks] at h; simp at h
      | cons c rest =>
          rw [hchunks] at h
          simp only [List.cons_ne_nil, if_false, Except.ok.injEq] at h
          refine ⟨c :: rest, List.cons_ne_nil c rest, h.symm, ?_, ?_, ?_⟩
          · intro d hd
            obtain ⟨hd1, t, ht, hd2⟩ :=
              pageChunks_mem pdf.pages d (hchunks ▸ hd)
            refine ⟨hd1, ?_, t, ht, hd2⟩
            rw [hd2, pyStrip_idem]
          · intro ch hch
            obtain ⟨hc1, t, _, hc2⟩ :=
              pageChunks_mem pdf.pages c (hchunks ▸ List.mem_cons_self c rest)
            have hcd : c.data ≠ [] := (str_ne_empty_iff c).mp hc1
            rw [← h, pyJoin_head? "\n\n" c rest hcd] at hch
            have : (stripChars t.data).head? = some ch := by
              have : c.data = stripChars t.data := by rw [hc2]; rfl
              rwa [this] at hch
            exact stripChars_head?_not t.data ch this
          · intro ch hch
            have hall : ∀ d ∈ c :: rest, d ≠ "" := fun d hd =>
              (pageChunks_mem pdf.pages d (hchunks ▸ hd)).1
            have hlast_mem := List.getLast_mem (l := c :: rest) (List.cons_ne_nil c rest)
            obtain ⟨hl1, t, _, hl2⟩ :=
              pageChunks_mem pdf.pages ((c :: rest).getLast (List.cons_ne_nil c rest))
                (by rw [hchunks]; exact hlast_mem)
            rw [← h, pyJoin_getLast? "\n\n" (c :: rest) hall (List.cons_ne_nil c rest)] at hch
            have : (stripChars t.data).getLast? = some ch := by
              have hdata : ((c :: rest).getLast (List.cons_ne_nil c rest)).data
                  = stripChars t.data := by rw [hl2]; rfl
              rwa [hdata] at hch
            exact stripChars_getLast?_not t.data ch this

/-- C10 witness: a one-page stream whose page text carries surrounding
whitespace. -/
theorem c10_stripped_chunks_witness :
    ∃ chunks : List String, chunks ≠ [] ∧ "alpha" = pyJoin "\n\n" chunks ∧
      (∀ c ∈ chunks, c ≠ "" ∧ pyStrip c = c ∧
        ∃ t, some t ∈ (⟨true, [some " alpha "]⟩ : PdfStream).pages ∧ c = pyStrip t) ∧
      (∀ ch, ("alpha" : String).data.head? = some ch → ch.isWhitespace = false) ∧
      (∀ ch, ("alpha" : String).data.getLast? = some ch → ch.isWhitespace = false) :=
  c10_stripped_chunks ⟨true, [some " alpha "]⟩ "alpha" rfl

/-! ## Helper lemmas: dicts and normalization -/

/-- Assignment then lookup of the same key yields the assigned value. -/
theorem dictLookup_dictSet_same (d : JsonObj) (k : String) (v : JsonValue) :
    dictLookup (dictSet d k v) k = some v := by
  induction d with
  | nil => simp [dictSet, dictLookup]
  | cons kv rest ih =>
      obtain ⟨k', v'⟩ := kv
      by_cases h : k' = k
      · simp [dictSet, h, dictLookup]
      · simp [dictSet, h, dictLookup, ih]

/-- Assignment leaves every other key's binding unchanged. -/
theorem dictLookup_dictSet_other (d : JsonObj) (k k' : String) (v : JsonValue)
    (h : k' ≠ k) : dictLookup (dictSet d k v) k' = dictLookup d k' := by
  have h' : ¬k = k' := fun hk => h hk.symm
  induction d with
  | nil => simp [dictSet, dictLookup, h']
  | cons kv rest ih =>
      obtain ⟨a, b⟩ := kv
      by_cases ha : a = k
      · subst ha
        simp [dictSet, dictLookup, h']
      · simp [dictSet, ha, dictLookup, ih]

/-- On an object payload one normalization statement is exception-free and
acts as `coerceField`. -/
theorem normField_obj (key : String) (check : JsonValue → Bool) (dflt : JsonValue)
    (fields : JsonObj) :
    normField key check dflt (.obj fields) =
      .ok (.obj (coerceField key check dflt fields)) := by
  unfold normField coerceField pyContains pyGetItem pySetItem
  cases h : dictLookup fields key with
  | none => simp [h, Bind.bind, Except.bind, Pure.pure, Except.pure]
  | some v =>
      cases hc : check v <;>
        simp [h, hc, Bind.bind, Except.bind, Pure.pure, Except.pure]

/-- On an object payload the whole normalization is exception-free and
coerces the three expected fields in order. -/
theorem normalize_obj (fields : JsonObj) :
    normalize (.obj fields) = .ok (.obj
      (coerceField "quiz" isList (.arr [])
        (coerceField "flashcards" isList (.arr [])
          (coerceField "summary" isStr (.str "") fields)))) := by
  unfold normalize
  simp [normField_obj, Bind.bind, Except.bind]

/-- Looking up the coerced key returns the checked value or the default. -/
theorem dictLookup_coerceField_same (key : String) (check : JsonValue → Bool)
    (dflt : JsonValue) (fields : JsonObj) :
    dictLookup (coerceField key check dflt fields) key =
      some (match dictLookup fields key with
            | some v => if check v then v else dflt
            | none => dflt) := by
  unfold coerceField
  cases h : dictLookup fields key with
  | none => simp [dictLookup_dictSet_same]
  | some v => cases hc : check v <;> simp [h, hc, dictLookup_dictSet_same]

/-- Coercing one key leaves every other key's binding unchanged. -/
theorem dictLookup_coerceField_other (key : String) (check : JsonValue → Bool)
    (dflt : JsonValue) (fields : JsonObj) (k : String) (h : k ≠ key) :
    dictLookup (coerceField key check dflt fields) k = dictLookup fields k := by
  cases hl : dictLookup fields key with
  | none =>
      simp only [coerceField, hl]
      exact dictLookup_dictSet_other fields key k dflt h
  | some v =>
      cases hc : check v
      · simp only [coerceField, hl, hc, Bool.false_eq_true, if_false]
        exact dictLookup_dictSet_other fields key k dflt h
      · simp only [coerceField, hl, hc, if_true]

/-- `coerceField`-style string defaulting agrees with the spec's phrasing. -/
theorem coerce_match_str (o : Option JsonValue) :
    (match o with
     | some v => if isStr v then v else JsonValue.str ""
     | none => JsonValue.str "") =
      (match o with
       | some (.str s) => JsonValue.str s
       | _ => JsonValue.str "") := by
  cases o with
  | none => rfl
  | some v => cases v <;> rfl

/-- `coerceField`-style list defaulting agrees with the spec's phrasing. -/
theorem coerce_match_list (o : Option JsonValue) :
    (match o with
     | some v => if isList v then v else JsonValue.arr []
     | none => JsonValue.arr []) =
      (match o with
       | some (.arr xs) => JsonValue.arr xs
       | _ => JsonValue.arr []) := by
  cases o with
  | none => rfl
  | some v => cases v <;> rfl

/-- On a non-object payload the normalization raises a TypeError. -/
theorem normalize_not_obj (v : JsonValue) (h : ∀ fields, v ≠ .obj fields) :
    ∃ m, normalize v = .error (.typeError m) := by
  cases v with
  | obj fields => exact absurd rfl (h fields)
  | null => exact ⟨_, rfl⟩
  | bool b => exact ⟨_, rfl⟩
  | num n => exact ⟨_, rfl⟩
  | str s =>
      by_cases hc : List.IsInfix "summary".data s.data
      · exact ⟨"indices must be integers", by
          simp [normalize, normField, pyContains, pyGetItem, pySetItem,
            Bind.bind, Except.bind, Pure.pure, Except.pure, hc]⟩
      · exact ⟨"object does not support item assignment", by
          simp [normalize, normField, pyContains, pyGetItem, pySetItem,
            Bind.bind, Except.bind, Pure.pure, Except.pure, hc]⟩
  | arr xs =>
      cases hc : xs.any fun v =>
        match v with
        | .str t => t = "summary"
        | _ => false
      · exact ⟨"object does not support item assignment", by
          simp [normalize, normField, pyContains, pyGetItem, pySetItem,
            Bind.bind, Except.bind, Pure.pure, Except.pure, hc]⟩
      · exact ⟨"indices must be integers", by
          simp [normalize, normField, pyContains, pyGetItem, pySetItem,
            Bind.bind, Except.bind, Pure.pure, Except.pure, hc]⟩

/-! ## Claim theorems: the generator -/

/-- C1: with a credential present, model calls are attempted in the fixed
order A, B, C; the first call that returns without throwing is the one whose
response is processed, later models are not invoked, and if all three throw
the function fails with a generation error carrying the last underlying
error. -/
theorem c1_fallback_chain (env : GenEnv) (text : String)
    (hkey : env.apiKey.getD "" ≠ "") :
    (∀ r, env.callA = .ok r →
        generate_study_material env text = ([modelA], processResponse env r)) ∧
      (∀ eA r, env.callA = .error eA → env.callB = .ok r →
        generate_study_material env text =
          ([modelA, modelB], processResponse env r)) ∧
      (∀ eA eB r, env.callA = .error eA → env.callB = .error eB →
        env.callC = .ok r →
        generate_study_material env text =
          ([modelA, modelB, modelC], processResponse env r)) ∧
      (∀ eA eB eC, env.callA = .error eA → env.callB = .error eB →
        env.callC = .error eC →
        generate_study_material env text =
          ([modelA, modelB, modelC], .error (.generationError eC))) := by
  refine ⟨?_, ?_, ?_, ?_⟩
  · intro r hA
    simp [generate_study_material, tryModels, hkey, hA]
  · intro eA r hA hB
    simp [generate_study_material, tryModels, hkey, hA, hB]
  · intro eA eB r hA hB hC
    simp [generate_study_material, tryModels, hkey, hA, hB, hC]
  · intro eA eB eC hA hB hC
    simp [generate_study_material, tryModels, hkey, hA, hB, hC]

/-- C1 witness: model A throws, model B succeeds; only A and B are invoked
and B's response is the one processed. -/
theorem c1_fallback_chain_witness :
    generate_study_material
        ⟨some "k", .error "boom", .ok (some "body"), .ok none, fun _ => none⟩ "doc" =
      ([modelA, modelB],
        processResponse
          ⟨some "k", .error "boom", .ok (some "body"), .ok none, fun _ => none⟩
          (some "body")) :=
  (c1_fallback_chain
    ⟨some "k", .error "boom", .ok (some "body"), .ok none, fun _ => none⟩
    "doc" (by decide)).2.1 "boom" (some "body") rfl rfl

/-- C3: normalizing a parsed object replaces a missing or non-string
summary by the empty string and a missing or non-list flashcards/quiz by
the empty list, and leaves the binding of every other key unchanged. -/
theorem c3_normalization (fields : JsonObj) :
    ∃ fields', normalize (.obj fields) = .ok (.obj fields') ∧
      dictLookup fields' "summary" =
        some (match dictLookup fields "summary" with
              | some (.str s) => JsonValue.str s
              | _ => JsonValue.str "") ∧
      dictLookup fields' "flashcards" =
        some (match dictLookup fields "flashcards" with
              | some (.arr xs) => JsonValue.arr xs
              | _ => JsonValue.arr []) ∧
      dictLookup fields' "quiz" =
        some (match dictLookup fields "quiz" with
              | some (.arr xs) => JsonValue.arr xs
              | _ => JsonValue.arr []) ∧
      ∀ k, k ≠ "summary" → k ≠ "flashcards" → k ≠ "quiz" →
        dictLookup fields' k = dictLookup fields k := by
  refine ⟨_, normalize_obj fields, ?_, ?_, ?_, ?_⟩
  · rw [dictLookup_coerceField_other _ _ _ _ _ (by decide),
      dictLookup_coerceField_other _ _ _ _ _ (by decide),
      dictLookup_coerceField_same, coerce_match_str]
  · rw [dictLookup_coerceField_other _ _ _ _ _ (by decide),
      dictLookup_coerceField_same,
      dictLookup_coerceField_other _ _ _ _ _ (by decide), coerce_match_list]
  · rw [dictLookup_coerceField_same,
      dictLookup_coerceField_other _ _ _ _ _ (by decide),
      dictLookup_coerceField_other _ _ _ _ _ (by decide), coerce_match_list]
  · intro k h1 h2 h3
    rw [dictLookup_coerceField_other _ _ _ _ _ h3,
      dictLookup_coerceField_other _ _ _ _ _ h2,
      dictLookup_coerceField_other _ _ _ _ _ h1]

/-- C3 witness: a payload that omits flashcards keeps its summary and quiz
as given while flashcards becomes the empty list. -/
theorem c3_normalization_witness :
    ∃ fields',
      normalize (.obj [("summary", .str "abc"), ("quiz", .arr [.num 1])]) =
        .ok (.obj fields') ∧
      dictLookup fields' "summary" =
        some (match dictLookup [("summary", JsonValue.str "abc"),
              ("quiz", JsonValue.arr [.num 1])] "summary" with
              | some (.str s) => JsonValue.str s
              | _ => JsonValue.str "") ∧
      dictLookup fields' "flashcards" =
        some (match dictLookup [("summary", JsonValue.str "abc"),
              ("quiz", JsonValue.arr [.num 1])] "flashcards" with
              | some (.arr xs) => JsonValue.arr xs
              | _ => JsonValue.arr []) ∧
      dictLookup fields' "quiz" =
        some (match dictLookup [("summary", JsonValue.str "abc"),
              ("quiz", JsonValue.arr [.num 1])] "quiz" with
              | some (.arr xs) => JsonValue.arr xs
              | _ => JsonValue.arr []) ∧
      ∀ k, k ≠ "summary" → k ≠ "flashcards" → k ≠ "quiz" →
        dictLookup fields' k =
          dictLookup [("summary", JsonValue.str "abc"),
            ("quiz", JsonValue.arr [.num 1])] k :=
  c3_normalization [("summary", .str "abc"), ("quiz", .arr [.num 1])]

/-- C6: once a model call has succeeded, an empty final body fails with the
empty-response error, and a non-empty body that is not valid JSON fails
with the malformed-response error. -/
theorem c6_body_checks (env : GenEnv) (text : String)
    (hkey : env.apiKey.getD "" ≠ "") (resp : Option String)
    (hok : (tryModels env).2 = .ok resp) :
    (resp.getD "" = "" →
        (generate_study_material env text).2 = .error .emptyResponseError) ∧
      (resp.getD "" ≠ "" → env.jsonLoads (resp.getD "") = none →
        (generate_study_material env text).2 = .error .malformedResponseError) := by
  constructor
  · intro hempty
    simp [generate_study_material, hkey, hok, processResponse, hempty]
  · intro hnonempty hjson
    simp [generate_study_material, hkey, hok, processResponse, hnonempty, hjson]

/-- C6 witness: a successful first call whose body is empty fails with the
empty-response error. -/
theorem c6_body_checks_witness :
    (generate_study_material
        ⟨some "k", .ok (some ""), .ok none, .ok none, fun _ => none⟩ "doc").2 =
      .error .emptyResponseError :=
  (c6_body_checks ⟨some "k", .ok (some ""), .ok none, .ok none, fun _ => none⟩
    "doc" (by decide) (some "") rfl).1 rfl

/-- C8: a missing or empty GEMINI_API_KEY fails with the configuration
error and no model call is attempted. -/
theorem c8_missing_credential (env : GenEnv) (text : String)
    (h : env.apiKey = none ∨ env.apiKey = some "") :
    generate_study_material env text = ([], .error .configurationError) := by
  have hk : env.apiKey.getD "" = "" := by
    rcases h with h | h <;> rw [h] <;> rfl
  simp [generate_study_material, hk]

/-- C8 witness: an absent credential. -/
theorem c8_missing_credential_witness :
    generate_study_material
        ⟨none, .ok (some "body"), .ok none, .ok none, fun _ => none⟩ "doc" =
      ([], .error .configurationError) :=
  c8_missing_credential
    ⟨none, .ok (some "body"), .ok none, .ok none, fun _ => none⟩ "doc" (Or.inl rfl)

/-- C9: a body that parses to a non-object JSON value makes the
normalization step raise an uncategorized TypeError: the function neither
returns normally nor raises the malformed-response error. -/
theorem c9_non_object_payload (env : GenEnv) (text : String)
    (hkey : env.apiKey.getD "" ≠ "") (resp : Option String)
    (hok : (tryModels env).2 = .ok resp) (hraw : resp.getD "" ≠ "")
    (v : JsonValue) (hparse : env.jsonLoads (resp.getD "") = some v)
    (hv : ∀ fields, v ≠ .obj fields) :
    ∃ m, (generate_study_material env text).2 = .error (.typeError m) := by
  obtain ⟨m, hm⟩ := normalize_not_obj v hv
  exact ⟨m, by
    simp [generate_study_material, hkey, hok, processResponse, hraw, hparse, hm]⟩

/-- C9 witness: a body parsing to the JSON array `[1]`. -/
theorem c9_non_object_payload_witness :
    ∃ m, (generate_study_material
        ⟨some "k", .ok (some "[1]"), .ok none, .ok none,
          fun _ => some (.arr [.num 1])⟩ "doc").2 = .error (.typeError m) :=
  c9_non_object_payload
    ⟨some "k", .ok (some "[1]"), .ok none, .ok none, fun _ => some (.arr [.num 1])⟩
    "doc" (by decide) (some "[1]") rfl (by decide) (.arr [.num 1]) rfl
    (by intro fields heq; cases heq)

/-! ## Claim theorems: the request handler -/

/-- C2: on a POST carrying a .pdf-named file, any extractor or generator
failure leaves summary/flashcards/quiz at their initial empty values and
surfaces exactly the exception's message (or the generic fallback when that
message is empty); on full success the error stays unset. -/
theorem c2_error_isolation (req : HttpRequest) (env : GenEnv)
    (f : UploadedFile) (h1 : req.method = "POST") (h2 : req.pdf_file = some f)
    (h3 : pyEndsWith (pyLower f.name) ".pdf" = true) :
    (∀ e, extract_text_from_pdf f.stream = .error e →
        dashboard req env =
          ({ initContext with error := some (orFallback (extractMsg e)) },
            ["extract"])) ∧
      (∀ t g, extract_text_from_pdf f.stream = .ok t →
        (generate_study_material env t).2 = .error g →
        dashboard req env =
          ({ initContext with error := some (orFallback (genMsg g)) },
            ["extract", "generate"])) ∧
      (∀ t d, extract_text_from_pdf f.stream = .ok t →
        (generate_study_material env t).2 = .ok d →
        (dashboard req env).1.error = none) := by
  refine ⟨?_, ?_, ?_⟩
  · intro e he
    simp [dashboard, h1, h2, h3, he]
  · intro t g ht hg
    simp [dashboard, h1, h2, h3, ht, hg]
  · intro t d ht hd
    simp [dashboard, h1, h2, h3, ht, hd]

/-- C2 witness: an unreadable stream surfaces the read error message with
the rest of the context untouched. -/
theorem c2_error_isolation_witness :
    dashboard ⟨"POST", some ⟨"a.pdf", ⟨false, []⟩⟩⟩
        ⟨none, .ok none, .ok none, .ok none, fun _ => none⟩ =
      ({ initContext with error := some (orFallback (extractMsg .readError)) },
        ["extract"]) :=
  (c2_error_isolation ⟨"POST", some ⟨"a.pdf", ⟨false, []⟩⟩⟩
    ⟨none, .ok none, .ok none, .ok none, fun _ => none⟩
    ⟨"a.pdf", ⟨false, []⟩⟩ rfl rfl (by decide)).1 .readError rfl

/-- C7: a POST with no file surfaces exactly the upload-prompt message, a
POST with a non-.pdf file name surfaces exactly the unsupported-type
message, and in both cases neither the extractor nor the generator runs. -/
theorem c7_upload_validation (req : HttpRequest) (env : GenEnv)
    (h1 : req.method = "POST") :
    (req.pdf_file = none →
        dashboard req env =
          ({ initContext with error := some "Please upload a PDF file." }, [])) ∧
      (∀ f, req.pdf_file = some f → pyEndsWith (pyLower f.name) ".pdf" = false →
        dashboard req env =
          ({ initContext with error := some "Only PDF files are supported." },
            [])) := by
  constructor
  · intro h
    simp [dashboard, h1, h]
  · intro f hf hname
    simp [dashboard, h1, hf, hname]

/-- C7 witness: a POST without a file. -/
theorem c7_upload_validation_witness :
    dashboard ⟨"POST", none⟩ ⟨none, .ok none, .ok none, .ok none, fun _ => none⟩ =
      ({ initContext with error := some "Please upload a PDF file." }, []) :=
  (c7_upload_validation ⟨"POST", none⟩
    ⟨none, .ok none, .ok none, .ok none, fun _ => none⟩ rfl).1 rfl

end DocuMind
